import Mathlib

/-!
Shallow embedding of the rust-repos crawler core: the GitHub API access
layer (`src/github/api.rs`) and the persistence layer (`src/data.rs`).
Pure control flow is translated into Lean functions; the retry loop is
driven by an explicit finite list of per-attempt outcomes (the loop in the
source is unbounded, so a run that exhausts the list while still retrying
is modelled as `none`).
-/

/-- The failure values that can come out of one API attempt, as the retry
loop distinguishes them by downcasting: `RetryRequest(status)` raised by
`handle_errors` or by the abuse-detection paths, a `reqwest` transport
error (timeout or other), an `std::io` error (connection reset or other),
or a generic `failure` error message. -/
inductive ApiError where
  | retryRequest (status : Nat)
  | reqwestTimeout
  | reqwestOther
  | ioConnectionReset
  | ioOther
  | message (text : String)
  deriving Repr, DecidableEq

/-- The classification performed inside `GitHubApi::retry`: a failure is
retried iff it downcasts to `RetryRequest`, to a `reqwest` timeout, or to
an io `ConnectionReset`. Everything else is propagated. -/
def isRetriable : ApiError → Bool
  | ApiError.retryRequest _ => true
  | ApiError.reqwestTimeout => true
  | ApiError.ioConnectionReset => true
  | _ => false

/-- Model of `ResponseExt::handle_errors`: statuses 500, 502, 503, 504 become a
`RetryRequest` failure carrying the status; any other status passes
through. -/
def handle_errors (status : Nat) : Except ApiError Nat :=
  if status = 500 ∨ status = 502 ∨ status = 503 ∨ status = 504 then
    Except.error (ApiError.retryRequest status)
  else
    Except.ok status

/-- Outcome of a single attempt of the wrapped closure: a value, an error,
or a Rust panic (which unwinds through the loop). -/
inductive Attempt (T : Type) where
  | ok (v : T)
  | err (e : ApiError)
  | panicked (msg : String)
  deriving Repr, DecidableEq

/-- Final outcome of a full `retry` run. -/
inductive RunResult (T : Type) where
  | ok (v : T)
  | fatal (e : ApiError)
  | panicked (msg : String)
  deriving Repr, DecidableEq

/-- The loop body of `GitHubApi::retry`, driven by the list of outcomes the
wrapped closure produces on successive attempts. `wait` is the current
backoff in seconds (starts at 10). On a retriable failure the loop sleeps
`wait` seconds (recorded in the returned list) and doubles `wait` unless it
is already at least 640. Returns `none` when the outcome list runs out
while the loop would still be retrying. -/
def retryLoop {T : Type} : List (Attempt T) → Nat → Option (RunResult T × List Nat)
  | [], _ => none
  | Attempt.ok v :: _, _ => some (RunResult.ok v, [])
  | Attempt.panicked m :: _, _ => some (RunResult.panicked m, [])
  | Attempt.err e :: rest, wait =>
    if isRetriable e then
      match retryLoop rest (if wait < 640 then wait * 2 else wait) with
      | none => none
      | some (r, sleeps) => some (r, wait :: sleeps)
    else
      some (RunResult.fatal e, [])

/-- Model of `GitHubApi::retry`: run the loop with the initial 10-second wait. -/
def retry {T : Type} (attempts : List (Attempt T)) : Option (RunResult T × List Nat) :=
  retryLoop attempts 10

/-- The sequence of sleeps performed by `n` consecutive retriable failures
starting from backoff `w`. -/
def waitSchedule : Nat → Nat → List Nat
  | 0, _ => []
  | n + 1, w => w :: waitSchedule n (if w < 640 then w * 2 else w)

theorem retryLoop_replicate {T : Type} (e : ApiError) (he : isRetriable e = true) (v : T) :
    ∀ (n w : Nat),
      retryLoop (List.replicate n (Attempt.err e) ++ [Attempt.ok v]) w
        = some (RunResult.ok v, waitSchedule n w) := by
  intro n
  induction n with
  | zero => intro w; rfl
  | succ k ih =>
    intro w
    rw [List.replicate_succ, List.cons_append]
    simp only [retryLoop, he, if_true, ih]
    rfl

theorem waitSchedule_closed :
    ∀ (n j : Nat), j ≤ 6 →
      waitSchedule n (10 * 2 ^ j)
        = (List.range n).map (fun k => min (10 * 2 ^ (j + k)) 640) := by
  intro n
  induction n with
  | zero => intro j _; rfl
  | succ m ih =>
    intro j hj
    have hle : 10 * 2 ^ j ≤ 640 := by
      have h2 : 2 ^ j ≤ 2 ^ 6 := Nat.pow_le_pow_right (by norm_num) hj
      calc 10 * 2 ^ j ≤ 10 * 2 ^ 6 := Nat.mul_le_mul_left 10 h2
        _ = 640 := by norm_num
    rw [List.range_succ_eq_map, List.map_cons, List.map_map]
    show waitSchedule (m + 1) (10 * 2 ^ j) = _
    rw [waitSchedule]
    by_cases hlt : j < 6
    · have hwlt : 10 * 2 ^ j < 640 := by
        have h2 : 2 ^ j < 2 ^ 6 := Nat.pow_lt_pow_right (by norm_num) hlt
        norm_num at h2
        omega
      rw [if_pos hwlt]
      have hdouble : 10 * 2 ^ j * 2 = 10 * 2 ^ (j + 1) := by ring
      rw [hdouble, ih (j + 1) (by omega)]
      congr 1
      · rw [Nat.add_zero, min_eq_left hle]
      · apply List.map_congr_left
        intro k _
        have : j + 1 + k = j + (k + 1) := by omega
        simp [this, Function.comp]
    · have hj6 : j = 6 := by omega
      subst hj6
      rw [if_neg (by norm_num)]
      rw [ih 6 (Nat.le_refl 6)]
      congr 1
      apply List.map_congr_left
      intro k _
      simp only [Function.comp, Nat.succ_eq_add_one]
      have hbig1 : (64 : Nat) ≤ 2 ^ (6 + k) := by
        calc (64 : Nat) = 2 ^ 6 := by norm_num
          _ ≤ 2 ^ (6 + k) := Nat.pow_le_pow_right (by norm_num) (by omega)
      have hbig2 : (64 : Nat) ≤ 2 ^ (6 + (k + 1)) := by
        calc (64 : Nat) = 2 ^ 6 := by norm_num
          _ ≤ 2 ^ (6 + (k + 1)) := Nat.pow_le_pow_right (by norm_num) (by omega)
      omega

theorem waitSchedule_ten (n : Nat) :
    waitSchedule n 10 = (List.range n).map (fun k => min (10 * 2 ^ k) 640) := by
  have h := waitSchedule_closed n 0 (by norm_num)
  simpa using h

/-- Claim C1: for every sequence of N consecutive retriable failures
followed by one success, `retry` returns that success, and the waits slept
between attempts are 10, 20, 40, ... seconds, doubling after each retriable
failure until reaching 640 seconds, after which every subsequent wait is
exactly 640 and never more (the k-th wait is `min (10 * 2 ^ k) 640`). -/
theorem retry_backoff_schedule {T : Type} (n : Nat) (v : T) (e : ApiError)
    (he : isRetriable e = true) :
    retry (List.replicate n (Attempt.err e) ++ [Attempt.ok v])
      = some (RunResult.ok v, (List.range n).map (fun k => min (10 * 2 ^ k) 640)) := by
  unfold retry
  rw [retryLoop_replicate e he v n 10, waitSchedule_ten]

/-- Witness for C1: eight consecutive 500 failures then success; the waits
are 10, 20, 40, 80, 160, 320, 640, 640 — capped, never above 640. -/
theorem retry_backoff_schedule_witness :
    retry (List.replicate 8 (Attempt.err (ApiError.retryRequest 500)) ++ [Attempt.ok (7 : Nat)])
      = some (RunResult.ok 7, [10, 20, 40, 80, 160, 320, 640, 640]) := by
  rw [retry_backoff_schedule 8 (7 : Nat) (ApiError.retryRequest 500) rfl]
  decide

def charListStartsWith : List Char → List Char → Bool
  | [], _ => true
  | _ :: _, [] => false
  | p :: ps, c :: cs => p == c && charListStartsWith ps cs

def charListContains (pat : List Char) : List Char → Bool
  | [] => charListStartsWith pat []
  | c :: cs => charListStartsWith pat (c :: cs) || charListContains pat cs

/-- Rust's `str::contains` for a literal pattern, as used by the abuse
checks: true iff the pattern occurs as a contiguous substring. -/
def strContains (s pat : String) : Bool := charListContains pat.toList s.toList

/-- The deserialized GitHub error object: a message and an optional
`type` tag. -/
structure GitHubError where
  message : String
  type_ : Option String
  deriving Repr, DecidableEq

/-- The deserialized GraphQL response envelope `GraphResponse<T>`. -/
structure GraphResponse (T : Type) where
  data_ : Option T
  errors : Option (List GitHubError)
  message : Option String
  deriving Repr, DecidableEq

/-- One attempt of the closure inside `GitHubApi::graphql`, applied to an
already-deserialized response envelope. With data present, errors are only
logged (NOT_FOUND ones at debug level) and the data is returned. With no
data: a non-empty error list fails with the last error's message (an empty
`Some` list panics on `unwrap`); otherwise a top-level message containing
"abuse" becomes a retriable `RetryRequest 429`, any other message is a
fatal error, and a fully empty envelope is the "empty GraphQL response"
error. -/
def graphqlAttempt {T : Type} (resp : GraphResponse T) : Attempt T :=
  match resp.data_ with
  | some d => Attempt.ok d
  | none =>
    match resp.errors with
    | some errs =>
      match errs.getLast? with
      | some e => Attempt.err (ApiError.message e.message)
      | none => Attempt.panicked "called Option::unwrap on a None value"
    | none =>
      match resp.message with
      | some m =>
        if strContains m "abuse" then Attempt.err (ApiError.retryRequest 429)
        else Attempt.err (ApiError.message m)
      | none => Attempt.err (ApiError.message "empty GraphQL response")

/-- Model of `GitHubApi::graphql`: the per-attempt interpretation wrapped in the
retry engine, driven by the envelope each attempt would deserialize. -/
def graphql {T : Type} (resps : List (GraphResponse T)) : Option (RunResult T × List Nat) :=
  retry (resps.map graphqlAttempt)

structure GraphRef where
  name : String
  deriving Repr, DecidableEq

structure GraphLanguage where
  name : String
  deriving Repr, DecidableEq

structure GraphLanguages where
  nodes : List (Option GraphLanguage)
  deriving Repr, DecidableEq

structure GraphRepository where
  id : String
  name_with_owner : String
  default_branch_ref : Option GraphRef
  languages : GraphLanguages
  deriving Repr, DecidableEq

structure GraphRateLimit where
  cost : Nat
  deriving Repr, DecidableEq

structure GraphRepositories where
  nodes : List (Option GraphRepository)
  rate_limit : GraphRateLimit
  deriving Repr, DecidableEq

/-- Model of `GitHubApi::load_repositories`: one batched GraphQL call; on success it
asserts (panics unless) the reported rate-limit cost is at most 1, then
returns the node list. -/
def load_repositories (resps : List (GraphResponse GraphRepositories)) :
    Option (RunResult (List (Option GraphRepository)) × List Nat) :=
  match graphql resps with
  | none => none
  | some (RunResult.ok d, sleeps) =>
    if d.rate_limit.cost ≤ 1 then some (RunResult.ok d.nodes, sleeps)
    else some (RunResult.panicked "load repositories query too costly", sleeps)
  | some (RunResult.fatal e, sleeps) => some (RunResult.fatal e, sleeps)
  | some (RunResult.panicked m, sleeps) => some (RunResult.panicked m, sleeps)

theorem retryLoop_fatal_not_retriable {T : Type} :
    ∀ (attempts : List (Attempt T)) (w : Nat) (e : ApiError) (sleeps : List Nat),
      retryLoop attempts w = some (RunResult.fatal e, sleeps) → isRetriable e = false := by
  intro attempts
  induction attempts with
  | nil => intro w e sleeps h; simp [retryLoop] at h
  | cons a rest ih =>
    intro w e sleeps h
    cases a with
    | ok v => simp [retryLoop] at h
    | panicked m => simp [retryLoop] at h
    | err e2 =>
      have hunfold : retryLoop (Attempt.err e2 :: rest) w
          = if isRetriable e2 then
              (match retryLoop rest (if w < 640 then w * 2 else w) with
                | none => none
                | some (r, sleeps) => some (r, w :: sleeps))
            else some (RunResult.fatal e2, []) := rfl
      rw [hunfold] at h
      by_cases hr : isRetriable e2 = true
      · rw [if_pos hr] at h
        cases hmatch : retryLoop rest (if w < 640 then w * 2 else w) with
        | none => rw [hmatch] at h; exact Option.noConfusion h
        | some pr =>
          obtain ⟨r, s⟩ := pr
          rw [hmatch] at h
          injection h with h'
          have h1 : r = RunResult.fatal e := congrArg Prod.fst h'
          exact ih _ e s (by rw [hmatch, h1])
      · rw [if_neg hr] at h
        injection h with h'
        have h1 : RunResult.fatal e2 = RunResult.fatal e := congrArg Prod.fst h'
        have h2 : e2 = e := by injection h1
        subst h2
        simpa using hr

/-- Claim C2 (amended): the retry engine absorbs exactly the failures it
classifies as retriable — the `RetryRequest` ones, which arise from HTTP
500/502/503/504 via `handle_errors` and from the abuse-detection throttle
(HTTP 429), plus transport timeouts and connection resets — and propagates
any other failure immediately, with no sleeps; hence a failure returned to
the caller is never retriable. -/
theorem retry_error_classification (T : Type) :
    (∀ s : Nat, handle_errors s = Except.error (ApiError.retryRequest s)
        ↔ (s = 500 ∨ s = 502 ∨ s = 503 ∨ s = 504)) ∧
    (∀ e : ApiError, isRetriable e = true
        ↔ ((∃ s : Nat, e = ApiError.retryRequest s) ∨ e = ApiError.reqwestTimeout
            ∨ e = ApiError.ioConnectionReset)) ∧
    (∀ (rest : List (Attempt T)) (e : ApiError), isRetriable e = false →
        retry (Attempt.err e :: rest) = some (RunResult.fatal e, [])) ∧
    (∀ (e : ApiError) (v : T), isRetriable e = true →
        retry [Attempt.err e, Attempt.ok v] = some (RunResult.ok v, [10])) ∧
    (∀ (attempts : List (Attempt T)) (e : ApiError) (sleeps : List Nat),
        retry attempts = some (RunResult.fatal e, sleeps) → isRetriable e = false) := by
  refine ⟨?_, ?_, ?_, ?_, ?_⟩
  · intro s
    constructor
    · intro h
      by_cases hd : s = 500 ∨ s = 502 ∨ s = 503 ∨ s = 504
      · exact hd
      · unfold handle_errors at h
        rw [if_neg hd] at h
        exact Except.noConfusion h
    · intro hd
      unfold handle_errors
      rw [if_pos hd]
  · intro e
    cases e <;> simp [isRetriable]
  · intro rest e he
    simp [retry, retryLoop, he]
  · intro e v he
    simp [retry, retryLoop, he]
  · intro attempts e sleeps h
    exact retryLoop_fatal_not_retriable attempts 10 e sleeps h

/-- Witness for C2 (amended): a non-retriable io error is propagated at
once with no sleeps; a timeout followed by success is absorbed with one
10-second sleep. -/
theorem retry_error_classification_witness :
    retry [Attempt.err ApiError.ioOther, Attempt.ok (5 : Nat)]
      = some (RunResult.fatal ApiError.ioOther, []) ∧
    retry [Attempt.err ApiError.reqwestTimeout, Attempt.ok (5 : Nat)]
      = some (RunResult.ok 5, [10]) :=
  ⟨(retry_error_classification Nat).2.2.1 [Attempt.ok 5] ApiError.ioOther rfl,
   (retry_error_classification Nat).2.2.2.1 ApiError.reqwestTimeout 5 rfl⟩

/-- Counterexample to C2 as stated: the abuse-detection throttle is turned
into `RetryRequest 429` by the GraphQL path; 429 is none of the failures
the claim lists as retriable (500/502/503/504, timeout, connection reset),
yet the retry engine absorbs it instead of propagating it to the caller. -/
theorem retry_absorbs_abuse_counterexample :
    graphqlAttempt ({ data_ := none, errors := none, message := some "abuse detected" } :
        GraphResponse Nat) = Attempt.err (ApiError.retryRequest 429) ∧
    (¬ (429 = 500 ∨ 429 = 502 ∨ 429 = 503 ∨ 429 = 504)) ∧
    ApiError.retryRequest 429 ≠ ApiError.reqwestTimeout ∧
    ApiError.retryRequest 429 ≠ ApiError.ioConnectionReset ∧
    retry [Attempt.err (ApiError.retryRequest 429), Attempt.ok (3 : Nat)]
      = some (RunResult.ok 3, [10]) :=
  ⟨by decide, by decide, by decide, by decide, rfl⟩

/-- Counterexample to C3 as stated: a response that carries valid data
together with an error payload neither tagged NOT_FOUND nor carrying any
abuse marker does NOT fail — the error is only logged and the call returns
the data as a success. -/
theorem graphql_data_with_errors_counterexample :
    (some "FORBIDDEN" ≠ some "NOT_FOUND") ∧
    (strContains "boom" "abuse" = false) ∧
    graphql [({ data_ := some 7,
                errors := some [{ message := "boom", type_ := some "FORBIDDEN" }],
                message := none } : GraphResponse Nat)]
      = some (RunResult.ok 7, []) :=
  ⟨by decide, by decide, rfl⟩

/-- Claim C3 (amended): for every GraphQL response that carries no data and
a non-empty error payload — whatever its error tags — the call fails with a
fatal (non-retriable) error built from the last error's message, and so
does `load_repositories`; errors accompanying present data are only logged
and do not fail the call. -/
theorem graphql_no_data_errors_fatal (resp : GraphResponse GraphRepositories)
    (errs : List GitHubError) (e : GitHubError)
    (h1 : resp.data_ = none) (h2 : resp.errors = some errs) (h3 : errs.getLast? = some e) :
    graphql [resp] = some (RunResult.fatal (ApiError.message e.message), []) ∧
    load_repositories [resp] = some (RunResult.fatal (ApiError.message e.message), []) ∧
    isRetriable (ApiError.message e.message) = false := by
  have hatt : graphqlAttempt resp = Attempt.err (ApiError.message e.message) := by
    simp [graphqlAttempt, h1, h2, h3]
  refine ⟨?_, ?_, rfl⟩
  · simp [graphql, retry, retryLoop, hatt, isRetriable]
  · simp [load_repositories, graphql, retry, retryLoop, hatt, isRetriable]

/-- Witness for C3 (amended): a data-less envelope with one FORBIDDEN error
makes both the GraphQL call and `load_repositories` fail fatally. -/
theorem graphql_no_data_errors_fatal_witness :
    load_repositories [{ data_ := none,
                         errors := some [{ message := "boom", type_ := some "FORBIDDEN" }],
                         message := none }]
      = some (RunResult.fatal (ApiError.message "boom"), []) :=
  (graphql_no_data_errors_fatal
    { data_ := none,
      errors := some [{ message := "boom", type_ := some "FORBIDDEN" }],
      message := none }
    [{ message := "boom", type_ := some "FORBIDDEN" }]
    { message := "boom", type_ := some "FORBIDDEN" } rfl rfl rfl).2.1

/-- Claim C4: `load_repositories` does not return a success value when the
response reports a rate-limit cost of 2 or more — the assertion fires — and
returns the node sequence when the reported cost is at most 1. -/
theorem load_repositories_cost_guard (d : GraphRepositories) :
    (2 ≤ d.rate_limit.cost →
      load_repositories [{ data_ := some d, errors := none, message := none }]
        = some (RunResult.panicked "load repositories query too costly", [])) ∧
    (d.rate_limit.cost ≤ 1 →
      load_repositories [{ data_ := some d, errors := none, message := none }]
        = some (RunResult.ok d.nodes, [])) := by
  constructor
  · intro h
    have hc : ¬ d.rate_limit.cost ≤ 1 := by omega
    simp [load_repositories, graphql, graphqlAttempt, retry, retryLoop, hc]
  · intro h
    simp [load_repositories, graphql, graphqlAttempt, retry, retryLoop, h]

/-- Witness for C4: cost 2 with otherwise-valid (empty) data aborts; cost 1
returns the nodes. -/
theorem load_repositories_cost_guard_witness :
    load_repositories [{ data_ := some { nodes := [], rate_limit := { cost := 2 } },
                         errors := none, message := none }]
      = some (RunResult.panicked "load repositories query too costly", []) ∧
    load_repositories [{ data_ := some { nodes := [], rate_limit := { cost := 1 } },
                         errors := none, message := none }]
      = some (RunResult.ok [], []) :=
  ⟨(load_repositories_cost_guard { nodes := [], rate_limit := { cost := 2 } }).1 (by decide),
   (load_repositories_cost_guard { nodes := [], rate_limit := { cost := 1 } }).2 (by decide)⟩

/-- Claim C5: a batch response carrying valid data together with one error
tagged NOT_FOUND succeeds — it is not classified as a failure — and returns
the node sequence, absent (none) at the not-found node's position and
populated elsewhere. -/
theorem graphql_not_found_absent_entry (d : GraphRepositories) (e : GitHubError) (i : Nat)
    (htype : e.type_ = some "NOT_FOUND")
    (hcost : d.rate_limit.cost ≤ 1)
    (hi : d.nodes[i]? = some none)
    (hothers : ∀ (j : Nat) (x : Option GraphRepository),
      j ≠ i → d.nodes[j]? = some x → x ≠ none) :
    graphql [{ data_ := some d, errors := some [e], message := none }]
      = some (RunResult.ok d, []) ∧
    load_repositories [{ data_ := some d, errors := some [e], message := none }]
      = some (RunResult.ok d.nodes, []) ∧
    d.nodes[i]? = some none ∧
    (∀ (j : Nat) (x : Option GraphRepository),
      j ≠ i → d.nodes[j]? = some x → ∃ r, x = some r) := by
  refine ⟨?_, ?_, hi, ?_⟩
  · simp [graphql, graphqlAttempt, retry, retryLoop]
  · simp [load_repositories, graphql, graphqlAttempt, retry, retryLoop, hcost]
  · intro j x hj hx
    cases x with
    | none => exact absurd rfl (hothers j none hj hx)
    | some r => exact ⟨r, rfl⟩
/-- A sample repository node used in concrete witnesses. -/
def repoSample : GraphRepository :=
  { id := "MDEw", name_with_owner := "o/r", default_branch_ref := none,
    languages := { nodes := [] } }

/-- A sample batch payload for C5: the first node found, the second absent,
with the expected unit query cost. -/
def batchSample : GraphRepositories :=
  { nodes := [some repoSample, none], rate_limit := { cost := 1 } }

/-- The envelope of `batchSample` accompanied by one NOT_FOUND error. -/
def notFoundResponse : GraphResponse GraphRepositories :=
  { data_ := some batchSample,
    errors := some [{ message := "not found", type_ := some "NOT_FOUND" }],
    message := none }

/-- Witness for C5: two nodes with the second not found; the batch succeeds
with a populated first entry and an absent second entry. -/
theorem graphql_not_found_absent_entry_witness :
    load_repositories [notFoundResponse]
      = some (RunResult.ok [some repoSample, none], []) := by
  have h := graphql_not_found_absent_entry batchSample
    { message := "not found", type_ := some "NOT_FOUND" } 1
    rfl (by decide) (by decide) ?hothers
  · exact h.2.1
  case hothers =>
    intro j x hj hx
    cases j with
    | zero =>
      simp [batchSample] at hx
      subst hx
      simp
    | succ n =>
      cases n with
      | zero => exact absurd rfl hj
      | succ m => simp [batchSample] at hx

/-- The branch name used by `GitHubApi::file_exists` when building the raw
content URL: the repository's default branch, or "master" when the
metadata carries none. -/
def fileExistsBranch (repo : GraphRepository) : String :=
  match repo.default_branch_ref with
  | some r => r.name
  | none => "master"

/-- The raw content URL built by `GitHubApi::file_exists`. -/
def fileExistsUrl (repo : GraphRepository) (path : String) : String :=
  "https://raw.githubusercontent.com/" ++ repo.name_with_owner ++ "/"
    ++ fileExistsBranch repo ++ "/" ++ path

/-- One attempt of the closure inside `GitHubApi::file_exists`, applied to
the HTTP status the probe receives: `handle_errors` first, then 200 maps to
true, 404 to false, and any other status to a fatal error. -/
def fileExistsAttempt (status : Nat) : Attempt Bool :=
  match handle_errors status with
  | Except.error e => Attempt.err e
  | Except.ok s =>
    if s = 200 then Attempt.ok true
    else if s = 404 then Attempt.ok false
    else Attempt.err (ApiError.message ("GitHub API returned status code " ++ toString s))

/-- Model of `GitHubApi::file_exists`: the per-attempt status interpretation wrapped
in the retry engine, driven by the status each attempt receives. -/
def file_exists (statuses : List Nat) : Option (RunResult Bool × List Nat) :=
  retry (statuses.map fileExistsAttempt)

/-- Counterexample to C8 as stated: 501 is a 5xx server error, yet the
probe does not retry it — the first attempt fails fatally with no backoff
sleep at all. -/
theorem file_exists_501_counterexample :
    (500 ≤ 501 ∧ 501 < 600) ∧
    file_exists [501]
      = some (RunResult.fatal (ApiError.message "GitHub API returned status code 501"), []) :=
  ⟨by decide, rfl⟩

/-- Claim C8 (amended): the probe returns true on HTTP 200 and false on
HTTP 404; server errors 500, 502, 503, 504 (not every 5xx) are retried
first per the backoff schedule; any other final status fails fatally; and
the URL targets the repository's default branch, falling back to the name
"master" when the metadata omits one. -/
theorem file_exists_status_mapping (repo : GraphRepository) (path : String) (ref : GraphRef) :
    (file_exists [200] = some (RunResult.ok true, [])) ∧
    (file_exists [404] = some (RunResult.ok false, [])) ∧
    (∀ s : Nat, (s = 500 ∨ s = 502 ∨ s = 503 ∨ s = 504) →
      file_exists [s, 200] = some (RunResult.ok true, [10])) ∧
    (∀ s : Nat, s ≠ 200 → s ≠ 404 → ¬ (s = 500 ∨ s = 502 ∨ s = 503 ∨ s = 504) →
      file_exists [s]
        = some (RunResult.fatal
            (ApiError.message ("GitHub API returned status code " ++ toString s)), [])) ∧
    (repo.default_branch_ref = none → fileExistsBranch repo = "master") ∧
    (repo.default_branch_ref = some ref → fileExistsBranch repo = ref.name) ∧
    (fileExistsUrl repo path
      = "https://raw.githubusercontent.com/" ++ repo.name_with_owner ++ "/"
          ++ fileExistsBranch repo ++ "/" ++ path) := by
  refine ⟨rfl, rfl, ?_, ?_, ?_, ?_, rfl⟩
  · rintro s (rfl | rfl | rfl | rfl) <;> rfl
  · intro s h200 h404 hretry
    simp [file_exists, retry, retryLoop, fileExistsAttempt, handle_errors,
      hretry, h200, h404, isRetriable]
  · intro h
    simp [fileExistsBranch, h]
  · intro h
    simp [fileExistsBranch, h]

/-- Witness for C8 (amended): a 502 is retried once then the probe
succeeds; a 418 fails fatally at once; a repository without default-branch
metadata is probed on "master". -/
theorem file_exists_status_mapping_witness :
    file_exists [502, 200] = some (RunResult.ok true, [10]) ∧
    file_exists [418]
      = some (RunResult.fatal (ApiError.message "GitHub API returned status code 418"), []) ∧
    fileExistsBranch repoSample = "master" := by
  refine ⟨?_, ?_, ?_⟩
  · exact (file_exists_status_mapping repoSample "Cargo.toml" { name := "main" }).2.2.1
      502 (by tauto)
  · exact (file_exists_status_mapping repoSample "Cargo.toml" { name := "main" }).2.2.2.1
      418 (by decide) (by decide) (by decide)
  · exact (file_exists_status_mapping repoSample "Cargo.toml" { name := "main" }).2.2.2.2.1 rfl

/-- The persisted crawl state (`State` in data.rs): the per-platform
last-processed id map, modelled as an association list with unique keys. -/
structure State where
  last_id : List (String × Nat)
  deriving Repr, DecidableEq

def lookupList : List (String × Nat) → String → Option Nat
  | [], _ => none
  | kv :: rest, p => if kv.1 == p then some kv.2 else lookupList rest p

/-- Model of `HashMap::get` on the state's map. -/
def State.lookup (st : State) (platform : String) : Option Nat :=
  lookupList st.last_id platform

/-- Model of `HashMap::insert`: replaces any existing binding for the key. -/
def State.insert (st : State) (platform : String) (id : Nat) : State :=
  { last_id := (platform, id) :: st.last_id.filter (fun kv => !(kv.1 == platform)) }

/-- Model of `Default::default()` for State: the empty map. -/
def defaultState : State := { last_id := [] }

/-- The state `Data::edit_state` operates on: the cached copy when the
cache is populated, else the deserialized durable file when one exists,
else the default empty state. -/
def effectiveState (cache disk : Option State) : State :=
  match cache with
  | some st => st
  | none =>
    match disk with
    | some st => st
    | none => defaultState

/-- Model of `Data::edit_state`: populate the cache (from the durable file when
present, else the default), apply the closure to the cached state, then
rewrite the whole durable file with the resulting state. Returns the new
cache, the new durable content and the closure's result. -/
def edit_state {T : Type} (cache disk : Option State) (f : State → State × T) :
    Option State × Option State × T :=
  let st := effectiveState cache disk
  let res := f st
  (some res.1, some res.1, res.2)

/-- Model of `Data::get_last_id`: an `edit_state` whose closure reads the map
without changing it. -/
def get_last_id (cache disk : Option State) (platform : String) :
    Option State × Option State × Option Nat :=
  edit_state cache disk (fun st => (st, st.lookup platform))

/-- Model of `Data::set_last_id`: an `edit_state` whose closure inserts the given
id for the platform. -/
def set_last_id (cache disk : Option State) (platform : String) (id : Nat) :
    Option State × Option State × Unit :=
  edit_state cache disk (fun st => (st.insert platform id, ()))

theorem State.lookup_insert_self (st : State) (p : String) (v : Nat) :
    (st.insert p v).lookup p = some v := by
  simp [State.lookup, State.insert, lookupList]

theorem lookupList_filter_ne (l : List (String × Nat)) (p q : String) (h : q ≠ p) :
    lookupList (l.filter (fun kv => !(kv.1 == p))) q = lookupList l q := by
  induction l with
  | nil => rfl
  | cons kv rest ih =>
    by_cases hk : (kv.1 == p) = true
    · have hkp : kv.1 = p := by simpa using hk
      have hkq : (kv.1 == q) = false := by
        rw [hkp, beq_eq_false_iff_ne]
        exact Ne.symm h
      rw [List.filter_cons_of_neg (by simp [hk])]
      rw [ih]
      simp [lookupList, hkq]
    · rw [List.filter_cons_of_pos (by simpa using hk)]
      simp only [lookupList, ih]

theorem State.lookup_insert_ne (st : State) (p q : String) (v : Nat) (h : q ≠ p) :
    (st.insert p v).lookup q = st.lookup q := by
  have hpq : (p == q) = false := by
    rw [beq_eq_false_iff_ne]
    exact Ne.symm h
  simp only [State.lookup, State.insert, lookupList, hpq, if_false]
  exact lookupList_filter_ne st.last_id p q h

/-- Claim C6: after `set_cursor(p, v)` the durable file, reloaded from
scratch by a process with an empty cache, yields cursor v for p; and
`get_cursor(q)` for a platform q that was never set returns none. -/
theorem cursor_write_through_roundtrip (cache disk : Option State) (p q : String) (v : Nat)
    (hq1 : q ≠ p) (hq2 : (effectiveState cache disk).lookup q = none) :
    (get_last_id none (set_last_id cache disk p v).2.1 p).2.2 = some v ∧
    (get_last_id none (set_last_id cache disk p v).2.1 q).2.2 = none := by
  constructor
  · show ((effectiveState cache disk).insert p v).lookup p = some v
    exact State.lookup_insert_self _ _ _
  · show ((effectiveState cache disk).insert p v).lookup q = none
    rw [State.lookup_insert_ne _ _ _ _ hq1]
    exact hq2

/-- Witness for C6: the spec's example — state `platformA = 42`, set
`platformA = 43`, fresh reload reads 43; `platformB` was never set and
reads as absent. -/
theorem cursor_write_through_roundtrip_witness :
    (get_last_id none (set_last_id (some { last_id := [("platformA", 42)] })
        (some { last_id := [("platformA", 42)] }) "platformA" 43).2.1 "platformA").2.2
      = some 43 ∧
    (get_last_id none (set_last_id (some { last_id := [("platformA", 42)] })
        (some { last_id := [("platformA", 42)] }) "platformA" 43).2.1 "platformB").2.2
      = none :=
  cursor_write_through_roundtrip (some { last_id := [("platformA", 42)] })
    (some { last_id := [("platformA", 42)] }) "platformA" "platformB" 43
    (by decide) (by decide)

/-- Claim C10: `get_cursor` returns the looked-up value and leaves the
mapping unchanged — the state it ends with is exactly the effective state,
so every platform maps as before — yet the call is not read-only at the
durable layer: like every `edit_state` call it rewrites the whole durable
file, leaving the disk holding the full (unchanged) mapping even when no
file existed before the call. -/
theorem get_cursor_rewrites_state_file (cache disk : Option State) (p : String) :
    (get_last_id cache disk p).2.2 = (effectiveState cache disk).lookup p ∧
    (get_last_id cache disk p).1 = some (effectiveState cache disk) ∧
    (get_last_id cache disk p).2.1 = some (effectiveState cache disk) ∧
    (∀ q : String, ((get_last_id cache disk p).2.1.getD defaultState).lookup q
        = (effectiveState cache disk).lookup q) :=
  ⟨rfl, rfl, rfl, fun _ => rfl⟩

/-- Counterexample to C9: with platform "platformA" stored at cursor 42,
the core operation `set_last_id("platformA", 5)` replaces the stored
cursor with the smaller value 5. -/
theorem set_cursor_monotonic_counterexample :
    (effectiveState (some { last_id := [("platformA", 42)] })
        (some { last_id := [("platformA", 42)] })).lookup "platformA" = some 42 ∧
    ((set_last_id (some { last_id := [("platformA", 42)] })
        (some { last_id := [("platformA", 42)] }) "platformA" 5).2.1.getD
        defaultState).lookup "platformA" = some 5 ∧
    5 < 42 :=
  ⟨by decide, by decide, by decide⟩

/-- Claim C9 (amended): `set_cursor(p, v)` stores exactly v — the durable
state afterwards binds p to v whether v is larger or smaller than the
previous cursor, and leaves every other platform's cursor unchanged;
monotonicity is a caller-side discipline, not enforced by the core. -/
theorem set_cursor_stores_exact_value (cache disk : Option State) (p : String) (v : Nat) :
    (set_last_id cache disk p v).2.1
      = some ((effectiveState cache disk).insert p v) ∧
    ((effectiveState cache disk).insert p v).lookup p = some v ∧
    (∀ q : String, q ≠ p →
      ((effectiveState cache disk).insert p v).lookup q
        = (effectiveState cache disk).lookup q) := by
  refine ⟨rfl, State.lookup_insert_self _ _ _, ?_⟩
  intro q hq
  exact State.lookup_insert_ne _ _ _ _ hq

/-- Witness for C9 (amended): after setting "platformA" to 5 the other
platform "platformB" still reads as absent. -/
theorem set_cursor_stores_exact_value_witness :
    ((effectiveState (some { last_id := [("platformA", 42)] }) none).insert
        "platformA" 5).lookup "platformB"
      = (effectiveState (some { last_id := [("platformA", 42)] }) none).lookup "platformB" :=
  (set_cursor_stores_exact_value (some { last_id := [("platformA", 42)] }) none
    "platformA" 5).2.2 "platformB" (by decide)

/-- A matched repository record (`Repo` in data.rs). -/
structure Repo where
  id : String
  name : String
  has_cargo_toml : Bool
  has_cargo_lock : Bool
  deriving Repr, DecidableEq

/-- The csv crate's default field quoting (`QuoteStyle::Necessary`): a
field is emitted verbatim unless it contains a comma, quote or line break,
in which case it is wrapped in quotes with inner quotes doubled. -/
def csvEscape (s : String) : String :=
  if s.toList.any (fun c => c == ',' || c == '"' || c == '\n' || c == '\r') then
    "\"" ++ s.replace "\"" "\"\"" ++ "\""
  else s

def boolField (b : Bool) : String := if b then "true" else "false"

/-- The header row the csv crate derives from the `Repo` field names. -/
def csvHeader : String := "id,name,has_cargo_toml,has_cargo_lock"

/-- The data row `csv.serialize(repo)` writes: the fields in declaration
order, serialized with the default quoting. -/
def csvRow (r : Repo) : String :=
  csvEscape r.id ++ "," ++ csvEscape r.name ++ ","
    ++ boolField r.has_cargo_toml ++ "," ++ boolField r.has_cargo_lock

/-- Model of `Data::store_repo`: the per-platform CSV files, modelled as a map from
platform name to the optional row list of `<platform>.csv`. A missing file
is created with the header row followed by the record's row; an existing
file gets exactly one data row appended (headers suppressed), all prior
content preserved. -/
def store_repo (files : String → Option (List String)) (platform : String) (repo : Repo) :
    String → Option (List String) :=
  fun q =>
    if q = platform then
      match files platform with
      | some lines => some (lines ++ [csvRow repo])
      | none => some [csvHeader, csvRow repo]
    else files q

/-- Claim C7: the first `store_repo` for a platform with no existing file
creates it as a header row followed by the record's row; every later append
adds exactly one row at the end, leaving all previously written rows
unchanged and in order; files of other platforms are untouched. -/
theorem store_repo_append_only (files : String → Option (List String))
    (platform : String) (r : Repo) (lines : List String) :
    (files platform = none →
      store_repo files platform r platform = some [csvHeader, csvRow r]) ∧
    (files platform = some lines →
      store_repo files platform r platform = some (lines ++ [csvRow r])) ∧
    (∀ q : String, q ≠ platform → store_repo files platform r q = files q) := by
  refine ⟨?_, ?_, ?_⟩
  · intro h
    simp [store_repo, h]
  · intro h
    simp [store_repo, h]
  · intro q hq
    simp [store_repo, hq]

/-- An empty result directory: no platform has a CSV file yet. -/
def fsEmpty : String → Option (List String) := fun _ => none

/-- The spec's first example record. -/
def repoRecord1 : Repo :=
  { id := "1", name := "r1", has_cargo_toml := true, has_cargo_lock := false }

/-- The spec's second example record. -/
def repoRecord2 : Repo :=
  { id := "2", name := "r2", has_cargo_toml := false, has_cargo_lock := true }

/-- Witness for C7: the spec's example — appending the two records to a
fresh platform yields the header plus exactly those two rows in order, the
first row unchanged by the second append. -/
theorem store_repo_append_only_witness :
    store_repo fsEmpty "github" repoRecord1 "github"
      = some ["id,name,has_cargo_toml,has_cargo_lock", "1,r1,true,false"] ∧
    store_repo (store_repo fsEmpty "github" repoRecord1) "github" repoRecord2 "github"
      = some ["id,name,has_cargo_toml,has_cargo_lock", "1,r1,true,false", "2,r2,false,true"] := by
  constructor
  · have h := (store_repo_append_only fsEmpty "github" repoRecord1 []).1 rfl
    rw [h]
    decide
  · have h := (store_repo_append_only (store_repo fsEmpty "github" repoRecord1) "github"
      repoRecord2 ["id,name,has_cargo_toml,has_cargo_lock", "1,r1,true,false"]).2.1 (by
        have h0 := (store_repo_append_only fsEmpty "github" repoRecord1 []).1 rfl
        rw [h0]
        decide)
    rw [h]
    decide
